import Mathlib

/-!
Shallow embedding of the Roo-Cline multi-profile API configuration manager
(`ConfigManager` in the extension source, plus the profile-validation module
`shared/validation`).  JavaScript runtime behaviour that the TypeScript source
relies on is modelled explicitly: string truthiness (`""` is falsy), the `\s`
character class of JS regular expressions, `String.prototype.trim`, object
key insertion order (association lists), and the `TypeError` thrown when a
property of `undefined` is read.  `Math.random`-based id generation is
modelled as a deterministic fresh-id supply threaded through the operations.
-/

namespace RooCline

/-- JS truthiness of an optional string field: `undefined` and `""` are falsy. -/
def truthy : Option String → Bool
  | none => false
  | some s => s ≠ ""

/-- JS `a || b` for an optional string `a` and a string default `b`. -/
def jsOrStr (a : Option String) (b : String) : String :=
  match a with
  | none => b
  | some s => if s = "" then b else s

/-- Whitespace as matched by the JS regex class `\s` (and removed by
`String.prototype.trim`). -/
def isJsWhitespace (c : Char) : Bool :=
  c = '\t' || c = '\n' || c = '\x0b' || c = '\x0c' || c = '\r' || c = ' ' ||
  c = '\u00A0' || c = '\u1680' || ('\u2000' ≤ c && c ≤ '\u200A') ||
  c = '\u2028' || c = '\u2029' || c = '\u202F' || c = '\u205F' ||
  c = '\u3000' || c = '\uFEFF'

/-- JS `String.prototype.trim`: strip leading and trailing whitespace. -/
def jsTrim (s : String) : String :=
  String.mk (((s.data.dropWhile isJsWhitespace).reverse.dropWhile isJsWhitespace).reverse)

/-- The character class of the name regex `/^[a-zA-Z0-9\s-_]+$/` in
`validateProfileName` (inside a JS class, `\s-_` is `\s`, a literal `-`
and `_`). -/
def allowedNameChar (c : Char) : Bool :=
  c.isAlpha || c.isDigit || isJsWhitespace c || c = '-' || c = '_'

/-- Structure `ValidationResult` from `shared/validation`. -/
structure ValidationResult where
  isValid : Bool
  errors : List String
  deriving Repr, DecidableEq

/-- Function `validateProfileName` from `shared/validation`: an `else if` chain
checking, in order: missing name, blank after trimming, collision with
`existingNames`, length over 50, characters outside the name regex. -/
def validateProfileName (name : String) (existingNames : List String) : ValidationResult :=
  let errors : List String :=
    if name = "" then
      ["Profile name is required"]
    else if (jsTrim name).length = 0 then
      ["Profile name cannot be empty"]
    else if existingNames.contains name then
      ["Profile name already exists"]
    else if name.length > 50 then
      ["Profile name cannot be longer than 50 characters"]
    else if !(name.data.all allowedNameChar) then
      ["Profile name can only contain letters, numbers, spaces, hyphens, and underscores"]
    else
      []
  { isValid := errors.isEmpty, errors := errors }

/-- The provider identifiers handled by the `apiProvider` switches in
`validateProfileSettings` and `ConfigManager.validateProfileSettings`.
The `ApiProvider` union itself lives in `shared/api`, which is not part of
the supplied sources; the switch cases fix the handled set. -/
inductive ApiProvider
  | anthropic
  | glama
  | openrouter
  | bedrock
  | vertex
  | openai
  | ollama
  | lmstudio
  | gemini
  | openaiNative
  | deepseek
  | vscodeLm
  | mistral
  deriving Repr, DecidableEq

/-- Modelled from the spec: model metadata records (`ModelInfo` in the
missing `shared/api` module).  Their contents are carried opaquely by the
profile store and never inspected by it. -/
structure ModelInfo where
  raw : String
  deriving Repr, DecidableEq

/-- Modelled from the spec: `vscode.LanguageModelChatSelector`, an object
carried opaquely in profiles (only its JS truthiness — presence — is ever
tested). -/
structure LmSelector where
  vendor : Option String := none
  family : Option String := none
  deriving Repr, DecidableEq

/-- Interface `ProfileSpecificSettings` from `ConfigManager`: one named
credential/configuration bundle.  `id` is a plain string (assigned on
extraction); every other field is optional. -/
structure ProfileSpecificSettings where
  id : String
  apiProvider : Option ApiProvider := none
  apiModelId : Option String := none
  apiKey : Option String := none
  glamaApiKey : Option String := none
  glamaModelId : Option String := none
  glamaModelInfo : Option ModelInfo := none
  openRouterApiKey : Option String := none
  awsAccessKey : Option String := none
  awsSecretKey : Option String := none
  awsSessionToken : Option String := none
  awsRegion : Option String := none
  awsUseCrossRegionInference : Option Bool := none
  vertexProjectId : Option String := none
  vertexRegion : Option String := none
  openAiBaseUrl : Option String := none
  openAiApiKey : Option String := none
  openAiModelId : Option String := none
  ollamaModelId : Option String := none
  ollamaBaseUrl : Option String := none
  lmStudioModelId : Option String := none
  lmStudioBaseUrl : Option String := none
  anthropicBaseUrl : Option String := none
  geminiApiKey : Option String := none
  openAiNativeApiKey : Option String := none
  deepSeekApiKey : Option String := none
  mistralApiKey : Option String := none
  azureApiVersion : Option String := none
  openAiStreamingEnabled : Option Bool := none
  openRouterModelId : Option String := none
  openRouterModelInfo : Option ModelInfo := none
  openRouterUseMiddleOutTransform : Option Bool := none
  vsCodeLmModelSelector : Option LmSelector := none
  deriving Repr, DecidableEq

/-- Type `ApiConfiguration`: the caller-supplied configuration object.  Its
profile-relevant fields mirror `ProfileSpecificSettings` (with `id`
optional).  `extraGlobalFields` is modelled from the spec: the type lives in
the missing `shared/api` module and callers may bundle UI/global-only fields
into the object (spec section 4.2, step 1 of `save`); the extraction
destructuring never reads them. -/
structure ApiConfiguration where
  id : Option String := none
  apiProvider : Option ApiProvider := none
  apiModelId : Option String := none
  apiKey : Option String := none
  glamaApiKey : Option String := none
  glamaModelId : Option String := none
  glamaModelInfo : Option ModelInfo := none
  openRouterApiKey : Option String := none
  awsAccessKey : Option String := none
  awsSecretKey : Option String := none
  awsSessionToken : Option String := none
  awsRegion : Option String := none
  awsUseCrossRegionInference : Option Bool := none
  vertexProjectId : Option String := none
  vertexRegion : Option String := none
  openAiBaseUrl : Option String := none
  openAiApiKey : Option String := none
  openAiModelId : Option String := none
  ollamaModelId : Option String := none
  ollamaBaseUrl : Option String := none
  lmStudioModelId : Option String := none
  lmStudioBaseUrl : Option String := none
  anthropicBaseUrl : Option String := none
  geminiApiKey : Option String := none
  openAiNativeApiKey : Option String := none
  deepSeekApiKey : Option String := none
  mistralApiKey : Option String := none
  azureApiVersion : Option String := none
  openAiStreamingEnabled : Option Bool := none
  openRouterModelId : Option String := none
  openRouterModelInfo : Option ModelInfo := none
  openRouterUseMiddleOutTransform : Option Bool := none
  vsCodeLmModelSelector : Option LmSelector := none
  extraGlobalFields : List (String × String) := []
  deriving Repr, DecidableEq

/-- Function `validateProfileSettings` from `shared/validation`.  The TS function is
declared on `ApiConfiguration` but every call in `ConfigManager` passes a
`ProfileSpecificSettings` (TS structural typing); the fields read are common
to both shapes.  Field presence tests are JS truthiness (`""` is falsy;
object fields test presence). -/
def validateProfileSettings (config : ProfileSpecificSettings) : ValidationResult :=
  let providerErrors : List String :=
    match config.apiProvider with
    | some .anthropic =>
        if !(truthy config.apiKey) then ["API key is required for Anthropic"] else []
    | some .openai =>
        (if !(truthy config.openAiApiKey) then ["API key is required for OpenAI"] else []) ++
        (if !(truthy config.openAiBaseUrl) then ["Base URL is required for OpenAI"] else [])
    | some .glama =>
        if !(truthy config.glamaApiKey) then ["API key is required for Glama"] else []
    | some .openrouter =>
        if !(truthy config.openRouterApiKey) then ["API key is required for OpenRouter"] else []
    | some .bedrock =>
        (if !(truthy config.awsAccessKey) then ["Access key is required for AWS Bedrock"] else []) ++
        (if !(truthy config.awsSecretKey) then ["Secret key is required for AWS Bedrock"] else [])
    | some .vertex =>
        (if !(truthy config.vertexProjectId) then ["Project ID is required for Vertex AI"] else []) ++
        (if !(truthy config.vertexRegion) then ["Region is required for Vertex AI"] else [])
    | some .gemini =>
        if !(truthy config.geminiApiKey) then ["API key is required for Gemini"] else []
    | some .openaiNative =>
        if !(truthy config.openAiNativeApiKey) then ["API key is required for OpenAI Native"] else []
    | some .deepseek =>
        if !(truthy config.deepSeekApiKey) then ["API key is required for DeepSeek"] else []
    | some .mistral =>
        if !(truthy config.mistralApiKey) then ["API key is required for Mistral"] else []
    | some .ollama => []
    | some .lmstudio => []
    | some .vscodeLm =>
        if config.vsCodeLmModelSelector.isNone then
          ["Model selector is required for VS Code Language Model"]
        else []
    | none => ["Invalid API provider"]
  let modelIdErrors : List String :=
    match config.apiModelId with
    | some s => if s ≠ "" && jsTrim s = "" then ["Model ID cannot be empty if specified"] else []
    | none => []
  let errors := providerErrors ++ modelIdErrors
  { isValid := errors.isEmpty, errors := errors }

/-- Function `validateProfileTransition` from `shared/validation`: advisory warnings
when overwriting an existing profile (logged by `SaveConfig`, never
blocking). -/
def validateProfileTransition (fromConfig toConfig : ProfileSpecificSettings) : ValidationResult :=
  let requiresReauth : List ApiProvider :=
    [.anthropic, .openai, .glama, .openrouter, .bedrock, .vertex, .gemini,
     .openaiNative, .deepseek, .mistral]
  let reauthErrors : List String :=
    if fromConfig.apiProvider ≠ toConfig.apiProvider then
      match fromConfig.apiProvider, toConfig.apiProvider with
      | some f, some t =>
          if requiresReauth.contains f && requiresReauth.contains t then
            ["Switching between these providers may require re-authentication"]
          else []
      | _, _ => []
    else []
  let modelErrors : List String :=
    if truthy fromConfig.apiModelId && toConfig.apiProvider ≠ fromConfig.apiProvider then
      ["Model ID may not be compatible with the new provider"]
    else []
  let errors := reauthErrors ++ modelErrors
  { isValid := errors.isEmpty, errors := errors }

/-- The fresh-id supply: `generateId()` draws `Math.random().toString(36)`
strings; it is modelled as a deterministic supply indexed by a counter
threaded through the operations (distinct indices give distinct ids). -/
def genId (n : Nat) : String :=
  "id_" ++ String.mk (List.replicate n '*')

/-- First value stored under a key in a JS-object-like association list. -/
def getKey {α : Type} (l : List (String × α)) (k : String) : Option α :=
  (l.find? (fun e => e.1 = k)).map (fun e => e.2)

/-- JS property assignment `obj[k] = v`: replace in place when the key is
present, append otherwise (JS objects keep insertion order). -/
def setKey {α : Type} : List (String × α) → String → α → List (String × α)
  | [], k, v => [(k, v)]
  | (k', v') :: rest, k, v =>
      if k' = k then (k, v) :: rest else (k', v') :: setKey rest k v

/-- JS `delete obj[k]`: drop the entry stored under `k`. -/
def eraseKey {α : Type} : List (String × α) → String → List (String × α)
  | [], _ => []
  | (k', v') :: rest, k =>
      if k' = k then rest else (k', v') :: eraseKey rest k

/-- Interface `GlobalSettings` from `ConfigManager`: process-wide settings.  Modes are
plain strings; `modeApiConfigs` is `undefined` (`none`) or an object
(association list) from mode to a profile id string. -/
structure GlobalSettings where
  currentApiConfigName : String
  alwaysAllowReadOnly : Option Bool := none
  alwaysAllowWrite : Option Bool := none
  alwaysAllowExecute : Option Bool := none
  alwaysAllowBrowser : Option Bool := none
  alwaysAllowMcp : Option Bool := none
  modeApiConfigs : Option (List (String × String)) := none
  deriving Repr, DecidableEq

/-- Interface `ApiConfigData`: the persisted root document.  Profiles are an ordered
name-to-settings map (JS object insertion order). -/
structure ApiConfigData where
  globalSettings : GlobalSettings
  profiles : List (String × ProfileSpecificSettings)
  deriving Repr, DecidableEq

/-- Method `ConfigManager.extractProfileSettings`: destructure exactly the
profile-relevant fields out of the caller's configuration; the stored `id`
is `apiConfiguration.id || this.generateId()` (JS `||`: a missing or empty
id is replaced by a fresh one, consuming the supply). -/
def extractProfileSettings (gen : Nat) (cfg : ApiConfiguration) :
    ProfileSpecificSettings × Nat :=
  let pid : String :=
    match cfg.id with
    | some i => if i = "" then genId gen else i
    | none => genId gen
  let gen' : Nat :=
    match cfg.id with
    | some i => if i = "" then gen + 1 else gen
    | none => gen + 1
  ({ id := pid
     apiProvider := cfg.apiProvider
     apiModelId := cfg.apiModelId
     apiKey := cfg.apiKey
     glamaApiKey := cfg.glamaApiKey
     glamaModelId := cfg.glamaModelId
     glamaModelInfo := cfg.glamaModelInfo
     openRouterApiKey := cfg.openRouterApiKey
     awsAccessKey := cfg.awsAccessKey
     awsSecretKey := cfg.awsSecretKey
     awsSessionToken := cfg.awsSessionToken
     awsRegion := cfg.awsRegion
     awsUseCrossRegionInference := cfg.awsUseCrossRegionInference
     vertexProjectId := cfg.vertexProjectId
     vertexRegion := cfg.vertexRegion
     openAiBaseUrl := cfg.openAiBaseUrl
     openAiApiKey := cfg.openAiApiKey
     openAiModelId := cfg.openAiModelId
     ollamaModelId := cfg.ollamaModelId
     ollamaBaseUrl := cfg.ollamaBaseUrl
     lmStudioModelId := cfg.lmStudioModelId
     lmStudioBaseUrl := cfg.lmStudioBaseUrl
     anthropicBaseUrl := cfg.anthropicBaseUrl
     geminiApiKey := cfg.geminiApiKey
     openAiNativeApiKey := cfg.openAiNativeApiKey
     deepSeekApiKey := cfg.deepSeekApiKey
     mistralApiKey := cfg.mistralApiKey
     azureApiVersion := cfg.azureApiVersion
     openAiStreamingEnabled := cfg.openAiStreamingEnabled
     openRouterModelId := cfg.openRouterModelId
     openRouterModelInfo := cfg.openRouterModelInfo
     openRouterUseMiddleOutTransform := cfg.openRouterUseMiddleOutTransform
     vsCodeLmModelSelector := cfg.vsCodeLmModelSelector }, gen')

/-- Method `ConfigManager.profileSettingsToApiConfig`: spread the stored profile
back into an `ApiConfiguration` (type-level reinterpretation). -/
def profileSettingsToApiConfig (p : ProfileSpecificSettings) : ApiConfiguration :=
  { id := some p.id
    apiProvider := p.apiProvider
    apiModelId := p.apiModelId
    apiKey := p.apiKey
    glamaApiKey := p.glamaApiKey
    glamaModelId := p.glamaModelId
    glamaModelInfo := p.glamaModelInfo
    openRouterApiKey := p.openRouterApiKey
    awsAccessKey := p.awsAccessKey
    awsSecretKey := p.awsSecretKey
    awsSessionToken := p.awsSessionToken
    awsRegion := p.awsRegion
    awsUseCrossRegionInference := p.awsUseCrossRegionInference
    vertexProjectId := p.vertexProjectId
    vertexRegion := p.vertexRegion
    openAiBaseUrl := p.openAiBaseUrl
    openAiApiKey := p.openAiApiKey
    openAiModelId := p.openAiModelId
    ollamaModelId := p.ollamaModelId
    ollamaBaseUrl := p.ollamaBaseUrl
    lmStudioModelId := p.lmStudioModelId
    lmStudioBaseUrl := p.lmStudioBaseUrl
    anthropicBaseUrl := p.anthropicBaseUrl
    geminiApiKey := p.geminiApiKey
    openAiNativeApiKey := p.openAiNativeApiKey
    deepSeekApiKey := p.deepSeekApiKey
    mistralApiKey := p.mistralApiKey
    azureApiVersion := p.azureApiVersion
    openAiStreamingEnabled := p.openAiStreamingEnabled
    openRouterModelId := p.openRouterModelId
    openRouterModelInfo := p.openRouterModelInfo
    openRouterUseMiddleOutTransform := p.openRouterUseMiddleOutTransform
    vsCodeLmModelSelector := p.vsCodeLmModelSelector
    extraGlobalFields := [] }

/-- Decidable equality for `Except` results, so that concrete runs of the
operations can be checked by `decide`. -/
instance {ε α : Type} [DecidableEq ε] [DecidableEq α] : DecidableEq (Except ε α) :=
  fun x y =>
    match x, y with
    | .ok a, .ok b =>
        if h : a = b then .isTrue (h ▸ rfl) else .isFalse (fun hc => h (Except.ok.inj hc))
    | .error a, .error b =>
        if h : a = b then .isTrue (h ▸ rfl) else .isFalse (fun hc => h (Except.error.inj hc))
    | .ok _, .error _ => .isFalse (fun hc => Except.noConfusion hc)
    | .error _, .ok _ => .isFalse (fun hc => Except.noConfusion hc)

/-- Tagged failures of the `ConfigManager` operations, before the generic
`Failed to ...: ${error}` rewrapping.  `typeError` is the JS `TypeError`
raised by reading a property of `undefined`. -/
inductive CfgError
  | invalidSettings (errors : List String)
  | invalidName (errors : List String)
  | notFound (name : String)
  | lastProfile
  | typeError
  deriving Repr, DecidableEq

/-- Method `ConfigManager.SaveConfig` acting on the document it read: extract
profile-specific settings, validate them (hard failure), validate the name
against the other profile names (hard failure), compute transition warnings
for an existing name (logged via `console.warn`, discarded here), then
store the extracted settings under `name` and persist.  An error means no
write happened. -/
def SaveConfig (name : String) (config : ApiConfiguration)
    (currentConfig : ApiConfigData) (gen : Nat) :
    Except CfgError (ApiConfigData × Nat) :=
  let profileSettings := (extractProfileSettings gen config).1
  let gen' := (extractProfileSettings gen config).2
  let settingsValidation := validateProfileSettings profileSettings
  if !settingsValidation.isValid then
    .error (.invalidSettings settingsValidation.errors)
  else
    let existingNames := (currentConfig.profiles.map Prod.fst).filter (fun n => n ≠ name)
    let nameValidation := validateProfileName name existingNames
    if !nameValidation.isValid then
      .error (.invalidName nameValidation.errors)
    else
      .ok ({ currentConfig with profiles := setKey currentConfig.profiles name profileSettings },
           gen')

/-- Result of `LoadConfig`: the returned configuration, the updated (and
persisted) document, and the `console.warn` log. -/
structure LoadResult where
  config : ApiConfiguration
  doc : ApiConfigData
  warnings : List String
  deriving Repr, DecidableEq

/-- Method `ConfigManager.LoadConfig`: look the profile up (NotFound if absent),
validate it but only warn, set it current, persist, and return it converted
back to an `ApiConfiguration`. -/
def LoadConfig (name : String) (config : ApiConfigData) :
    Except CfgError LoadResult :=
  match getKey config.profiles name with
  | none => .error (.notFound name)
  | some profileSettings =>
      let settingsValidation := validateProfileSettings profileSettings
      let warnings :=
        if !settingsValidation.isValid then
          ["Loading profile with validation errors: " ++
           String.intercalate ", " settingsValidation.errors]
        else []
      .ok { config := profileSettingsToApiConfig profileSettings
            doc := { config with
                      globalSettings :=
                        { config.globalSettings with currentApiConfigName := name } }
            warnings := warnings }

/-- Method `ConfigManager.DeleteConfig`: NotFound if absent; refuse to delete the
last remaining profile; otherwise switch `currentApiConfigName` to the first
other key if the deleted profile was current, prune mode bindings whose id
is the deleted profile's id, remove the entry and persist. -/
def DeleteConfig (name : String) (currentConfig : ApiConfigData) :
    Except CfgError ApiConfigData :=
  match getKey currentConfig.profiles name with
  | none => .error (.notFound name)
  | some p =>
      if currentConfig.profiles.length = 1 then
        .error .lastProfile
      else
        let gs := currentConfig.globalSettings
        let gs :=
          if gs.currentApiConfigName = name then
            match (currentConfig.profiles.map Prod.fst).find? (fun n => n ≠ name) with
            | some newCurrentName => { gs with currentApiConfigName := newCurrentName }
            | none => gs
          else gs
        let gs :=
          match gs.modeApiConfigs with
          | none => gs
          | some ms =>
              { gs with modeApiConfigs := some (ms.filter (fun e => e.2 ≠ p.id)) }
        .ok { globalSettings := gs, profiles := eraseKey currentConfig.profiles name }

/-- Method `ConfigManager.SetCurrentConfig`: NotFound if absent, else set the
current profile name and persist. -/
def SetCurrentConfig (name : String) (currentConfig : ApiConfigData) :
    Except CfgError ApiConfigData :=
  match getKey currentConfig.profiles name with
  | none => .error (.notFound name)
  | some _ =>
      .ok { currentConfig with
             globalSettings :=
               { currentConfig.globalSettings with currentApiConfigName := name } }

/-- Method `ConfigManager.RenameConfig`: NotFound for a missing `oldName`; validate
`newName` against the other names; move the profile
(`profiles[newName] = profiles[oldName]; delete profiles[oldName]`); update
`currentApiConfigName`; then the mode-binding fix-up loop reads
`currentConfig.profiles[oldName].id` — but `profiles[oldName]` was just
deleted, so with a non-empty `modeApiConfigs` the first iteration
dereferences `undefined` and throws a `TypeError` (nothing is persisted). -/
def RenameConfig (oldName newName : String) (currentConfig : ApiConfigData) :
    Except CfgError ApiConfigData :=
  match getKey currentConfig.profiles oldName with
  | none => .error (.notFound oldName)
  | some movedProfile =>
      let existingNames := (currentConfig.profiles.map Prod.fst).filter (fun n => n ≠ oldName)
      let nameValidation := validateProfileName newName existingNames
      if !nameValidation.isValid then
        .error (.invalidName nameValidation.errors)
      else
        let profiles1 := setKey currentConfig.profiles newName movedProfile
        let profiles2 := eraseKey profiles1 oldName
        let gs := currentConfig.globalSettings
        let gs :=
          if gs.currentApiConfigName = oldName then
            { gs with currentApiConfigName := newName }
          else gs
        match gs.modeApiConfigs with
        | none => .ok { globalSettings := gs, profiles := profiles2 }
        | some [] => .ok { globalSettings := gs, profiles := profiles2 }
        | some (e :: es) =>
            match getKey profiles2 oldName with
            | none => .error .typeError
            | some q =>
                let rewritten := (e :: es).map (fun b =>
                  if b.2 = q.id then
                    match getKey profiles2 newName with
                    | some r => (b.1, r.id)
                    | none => b
                  else b)
                .ok { globalSettings := { gs with modeApiConfigs := some rewritten }
                      profiles := profiles2 }

/-- The legacy persisted shape detected by `initConfig` via
`"apiConfigs" in config`: a top-level `currentApiConfigName`, a flat
`apiConfigs` map from profile name to configuration, and an optional
top-level `modeApiConfigs`; no `globalSettings`/`profiles` split. -/
structure LegacyDoc where
  currentApiConfigName : Option String := none
  apiConfigs : List (String × ApiConfiguration)
  modeApiConfigs : Option (List (String × String)) := none
  deriving Repr, DecidableEq

/-- A parsed stored document: either the legacy shape or the current
`ApiConfigData` shape (the two shapes this code ever persists). -/
inductive StoredDoc
  | legacy (d : LegacyDoc)
  | current (d : ApiConfigData)
  deriving Repr, DecidableEq

/-- Field `ConfigManager.defaultConfig`: one profile named `"default"` whose id
was drawn once at construction (`seed`), no provider selected, current
profile `"default"`. -/
def defaultConfig (seed : String) : ApiConfigData :=
  { globalSettings := { currentApiConfigName := "default" }
    profiles := [("default", { id := seed })] }

/-- Method `ConfigManager.readConfig`: when the secret store holds nothing it
returns the in-memory `defaultConfig`; otherwise it returns the parsed
content unchanged (the structure check passes legacy shapes through for
`initConfig` to migrate). -/
def readConfig (store : Option StoredDoc) (seed : String) : StoredDoc :=
  match store with
  | none => .current (defaultConfig seed)
  | some d => d

/-- The migration loop of `initConfig`: run `extractProfileSettings` over
each legacy entry in order, threading the id supply. -/
def migrateProfiles (gen : Nat) :
    List (String × ApiConfiguration) → List (String × ProfileSpecificSettings) × Nat
  | [] => ([], gen)
  | (name, apiConfig) :: rest =>
      let pg := extractProfileSettings gen apiConfig
      let mg := migrateProfiles pg.2 rest
      ((name, pg.1) :: mg.1, mg.2)

/-- The `Ensure all configs have IDs` loop of `initConfig`: give every
profile with a falsy id a fresh one; the boolean reports whether anything
changed (`needsMigration`). -/
def ensureIds (gen : Nat) :
    List (String × ProfileSpecificSettings) →
    List (String × ProfileSpecificSettings) × Nat × Bool
  | [] => ([], gen, false)
  | (name, profile) :: rest =>
      if profile.id = "" then
        let r := ensureIds (gen + 1) rest
        ((name, { profile with id := genId gen }) :: r.1, r.2.1, true)
      else
        let r := ensureIds gen rest
        ((name, profile) :: r.1, r.2.1, r.2.2)

/-- Outcome of `initConfig`: the state of the secret store afterwards, the
remaining id supply, and the error rethrown by the surrounding
`try`/`catch`, if any. -/
structure InitResult where
  store : Option StoredDoc
  gen : Nat
  threw : Option String := none
  deriving Repr, DecidableEq

/-- Method `ConfigManager.initConfig` acting on the secret store.  `readConfig`
never returns a falsy value, so the `if (!config)` write-fresh-document
branch is unreachable.  A legacy document is rewritten and persisted; but
the subsequent `if (!config.globalSettings)` backfill still runs on the
stale legacy object and dereferences `config.profiles` (`undefined`),
throwing a `TypeError` after the migrated document was already written.  A
current-shaped document only gets missing profile ids backfilled, writing
only when something changed. -/
def initConfig (seed : String) (store : Option StoredDoc) (gen : Nat) : InitResult :=
  match readConfig store seed with
  | .legacy oldConfig =>
      let mg := migrateProfiles gen oldConfig.apiConfigs
      let newConfig : ApiConfigData :=
        { globalSettings :=
            { currentApiConfigName := jsOrStr oldConfig.currentApiConfigName "default"
              modeApiConfigs := some (oldConfig.modeApiConfigs.getD []) }
          profiles := mg.1 }
      { store := some (.current newConfig)
        gen := mg.2
        threw := some "TypeError: cannot read properties of undefined" }
  | .current config =>
      let r := ensureIds gen config.profiles
      if r.2.2 then
        { store := some (.current { config with profiles := r.1 }), gen := r.2.1 }
      else
        { store := store, gen := r.2.1 }

/-! Concrete documents and configurations used as test inputs. -/

/-- A document holding one profile `"a"` with persisted id `"A1"`. -/
def docSaveId : ApiConfigData :=
  { globalSettings := { currentApiConfigName := "a" }
    profiles := [("a", { id := "A1", apiProvider := some .ollama })] }

/-- The document `SaveConfig "a"` produces from `docSaveId` when the caller
passes a configuration carrying no id: the stored id has been regenerated. -/
def docSavedFresh : ApiConfigData :=
  { globalSettings := { currentApiConfigName := "a" }
    profiles := [("a", { id := genId 0, apiProvider := some .ollama })] }

/-- The legacy document of the migration round-trip example: profiles `p1`
and `p2`, current name `"p2"`, and a mode binding `chat -> "p1"` (a profile
name, as the legacy format stored). -/
def legacyRoundTrip : LegacyDoc :=
  { currentApiConfigName := some "p2"
    apiConfigs := [("p1", { apiProvider := some .ollama }),
                   ("p2", { apiProvider := some .lmstudio })]
    modeApiConfigs := some [("chat", "p1")] }

/-- What `initConfig` actually persists for `legacyRoundTrip`: fresh ids for
`p1` and `p2`, the carried-over current name, and the mode binding copied
verbatim as the profile name `"p1"`. -/
def migratedRoundTrip : ApiConfigData :=
  { globalSettings := { currentApiConfigName := "p2"
                        modeApiConfigs := some [("chat", "p1")] }
    profiles := [("p1", { id := genId 0, apiProvider := some .ollama }),
                 ("p2", { id := genId 1, apiProvider := some .lmstudio })] }

/-- A freshly initialised single-profile document. -/
def docSingleDefault : ApiConfigData :=
  { globalSettings := { currentApiConfigName := "default" }
    profiles := [("default", { id := "d1" })] }

/-- What renaming `"default"` to itself leaves behind: the profile map is
emptied while the current name still says `"default"`. -/
def docSelfRenamed : ApiConfigData :=
  { globalSettings := { currentApiConfigName := "default" }
    profiles := [] }

/-- A two-profile document with a non-empty mode-binding map. -/
def docMode : ApiConfigData :=
  { globalSettings := { currentApiConfigName := "a"
                        modeApiConfigs := some [("code", "A1")] }
    profiles := [("a", { id := "A1", apiProvider := some .ollama }),
                 ("dup", { id := "D1", apiProvider := some .ollama })] }

/-- The two-profile document of the deletion-reassignment example. -/
def docTwo : ApiConfigData :=
  { globalSettings := { currentApiConfigName := "a"
                        modeApiConfigs := some [("m", "A1")] }
    profiles := [("a", { id := "A1", apiProvider := some .ollama }),
                 ("b", { id := "B1", apiProvider := some .lmstudio })] }

/-- A 60-character candidate profile name. -/
def name60 : String :=
  String.mk (List.replicate 60 'a')

/-- A bedrock configuration with an access key but no secret key. -/
def cfgBedrock : ApiConfiguration :=
  { apiProvider := some .bedrock, awsAccessKey := some "k" }

/-- The allowed-character set as the specification states it: letters,
digits, the space character, underscore and hyphen.  This follows the
spec's words (for comparison with the code's `allowedNameChar`, which also
admits every other JS whitespace character). -/
def specAllowedNameChar (c : Char) : Bool :=
  c.isAlpha || c.isDigit || c = ' ' || c = '_' || c = '-'

/-! Association-list lemmas for the JS-object model. -/

theorem getKey_cons {α : Type} (k' : String) (v' : α) (rest : List (String × α)) (k : String) :
    getKey ((k', v') :: rest) k = if k' = k then some v' else getKey rest k := by
  by_cases h : k' = k <;> simp [getKey, List.find?_cons, h]

theorem getKey_setKey_self {α : Type} (l : List (String × α)) (k : String) (v : α) :
    getKey (setKey l k v) k = some v := by
  induction l with
  | nil => simp [setKey, getKey_cons]
  | cons e rest ih =>
      obtain ⟨k', v'⟩ := e
      by_cases h : k' = k <;> simp [setKey, h, getKey_cons, ih]

theorem getKey_setKey_ne {α : Type} (l : List (String × α)) (k k' : String) (v : α)
    (h : k' ≠ k) :
    getKey (setKey l k v) k' = getKey l k' := by
  induction l with
  | nil =>
      rw [setKey, getKey_cons, if_neg (Ne.symm h)]
  | cons e rest ih =>
      obtain ⟨a, b⟩ := e
      by_cases ha : a = k
      · subst ha
        rw [setKey, if_pos rfl, getKey_cons, getKey_cons,
          if_neg (Ne.symm h), if_neg (Ne.symm h)]
      · rw [setKey, if_neg ha, getKey_cons, getKey_cons, ih]

theorem getKey_eraseKey_ne {α : Type} (l : List (String × α)) (k k' : String)
    (h : k' ≠ k) :
    getKey (eraseKey l k) k' = getKey l k' := by
  induction l with
  | nil => rfl
  | cons e rest ih =>
      obtain ⟨a, b⟩ := e
      by_cases ha : a = k
      · subst ha
        rw [eraseKey, if_pos rfl, getKey_cons, if_neg (Ne.symm h)]
      · rw [eraseKey, if_neg ha, getKey_cons, getKey_cons, ih]

theorem getKey_eq_some_mem {α : Type} {l : List (String × α)} {k : String} {v : α}
    (h : getKey l k = some v) : k ∈ l.map Prod.fst := by
  induction l with
  | nil => simp [getKey] at h
  | cons e rest ih =>
      obtain ⟨a, b⟩ := e
      rw [getKey_cons] at h
      by_cases ha : a = k
      · simp [ha]
      · rw [if_neg ha] at h
        simp [ih h]

theorem find?_eq_head?_filter {α : Type} (p : α → Bool) (l : List α) :
    l.find? p = (l.filter p).head? := by
  induction l with
  | nil => rfl
  | cons a t ih =>
      cases h : p a with
      | true =>
          rw [List.find?_cons_of_pos _ h, List.filter_cons_of_pos h]
          rfl
      | false =>
          rw [List.find?_cons_of_neg _ (by simp [h]), List.filter_cons_of_neg (by simp [h]), ih]

theorem map_fst_eraseKey {α : Type} (l : List (String × α)) (k : String)
    (h : (l.map Prod.fst).Nodup) :
    (eraseKey l k).map Prod.fst = (l.map Prod.fst).filter (fun n => n ≠ k) := by
  induction l with
  | nil => rfl
  | cons e rest ih =>
      obtain ⟨a, b⟩ := e
      rw [List.map_cons, List.nodup_cons] at h
      by_cases ha : a = k
      · subst ha
        rw [eraseKey, if_pos rfl, List.map_cons, List.filter_cons]
        have hcond : (decide (a ≠ a)) = false := by simp
        rw [hcond]
        refine (List.filter_eq_self.mpr ?_).symm
        intro x hx
        have hxa : x ≠ a := fun he => h.1 (he ▸ hx)
        simpa using hxa
      · rw [eraseKey, if_neg ha, List.map_cons, List.map_cons, List.filter_cons]
        have hcond : (decide (a ≠ k)) = true := by simpa using ha
        rw [hcond, ih h.2]
        simp

/-! Facts about the extraction step and the id supply. -/

theorem extract_apiProvider (gen : Nat) (cfg : ApiConfiguration) :
    (extractProfileSettings gen cfg).1.apiProvider = cfg.apiProvider := rfl

theorem extract_awsAccessKey (gen : Nat) (cfg : ApiConfiguration) :
    (extractProfileSettings gen cfg).1.awsAccessKey = cfg.awsAccessKey := rfl

theorem extract_awsSecretKey (gen : Nat) (cfg : ApiConfiguration) :
    (extractProfileSettings gen cfg).1.awsSecretKey = cfg.awsSecretKey := rfl

theorem extract_id_of_some (gen : Nat) (cfg : ApiConfiguration) (i : String)
    (hid : cfg.id = some i) (hne : i ≠ "") :
    (extractProfileSettings gen cfg).1.id = i := by
  simp [extractProfileSettings, hid, hne]

theorem extract_id_of_none (gen : Nat) (cfg : ApiConfiguration)
    (hid : cfg.id = none) :
    (extractProfileSettings gen cfg).1.id = genId gen := by
  simp [extractProfileSettings, hid]

theorem extract_gen_of_none (gen : Nat) (cfg : ApiConfiguration)
    (hid : cfg.id = none) :
    (extractProfileSettings gen cfg).2 = gen + 1 := by
  simp [extractProfileSettings, hid]

theorem genId_length (n : Nat) : (genId n).length = 3 + n := by
  rw [genId, String.length_append]
  have h1 : ("id_" : String).length = 3 := rfl
  have h2 : (String.mk (List.replicate n '*')).length = n := by
    have hmk : (String.mk (List.replicate n '*')).length = (List.replicate n '*').length := rfl
    rw [hmk, List.length_replicate]
  rw [h1, h2]

theorem genId_injective : Function.Injective genId := by
  intro m n h
  have hlen := congrArg String.length h
  rw [genId_length, genId_length] at hlen
  omega

/-- A successful `SaveConfig` writes exactly the extracted settings under
`name` and returns the remaining id supply. -/
theorem SaveConfig_ok_shape {name : String} {cfg : ApiConfiguration}
    {doc : ApiConfigData} {gen : Nat} {d : ApiConfigData} {g : Nat}
    (h : SaveConfig name cfg doc gen = .ok (d, g)) :
    d = { doc with profiles := setKey doc.profiles name (extractProfileSettings gen cfg).1 } ∧
      g = (extractProfileSettings gen cfg).2 := by
  simp only [SaveConfig] at h
  split at h
  · simp at h
  · split at h
    · simp at h
    · simp only [Except.ok.injEq, Prod.mk.injEq] at h
      exact ⟨h.1.symm, h.2.symm⟩

/-- Profile names are carried through the migration loop unchanged. -/
theorem migrateProfiles_names (gen : Nat) (l : List (String × ApiConfiguration)) :
    (migrateProfiles gen l).1.map Prod.fst = l.map Prod.fst := by
  induction l generalizing gen with
  | nil => rfl
  | cons e rest ih =>
      obtain ⟨n, c⟩ := e
      simp only [migrateProfiles, List.map_cons, ih]

/-- When no legacy entry carries an id, the migration assigns the ids
`genId gen`, `genId (gen+1)`, ... in document order. -/
theorem migrateProfiles_ids_of_no_id (l : List (String × ApiConfiguration)) :
    ∀ gen, (∀ e ∈ l, e.2.id = none) →
      (migrateProfiles gen l).1.map (fun e => e.2.id) =
        (List.range l.length).map (fun k => genId (gen + k)) := by
  induction l with
  | nil => intro gen _; rfl
  | cons e rest ih =>
      intro gen h
      obtain ⟨n, c⟩ := e
      have hc : c.id = none := h (n, c) (List.mem_cons_self _ _)
      simp only [migrateProfiles, List.map_cons]
      rw [extract_id_of_none gen c hc, extract_gen_of_none gen c hc,
        ih (gen + 1) (fun e he => h e (List.mem_cons_of_mem _ he))]
      rw [List.length_cons, List.range_succ_eq_map, List.map_cons, List.map_map]
      rw [Nat.add_zero]
      refine congrArg (genId gen :: ·) (List.map_congr_left ?_)
      intro k _
      simp only [Function.comp]
      congr 1
      omega

/-- In a duplicate-free list of at least two names, searching for an entry
different from `name` succeeds. -/
theorem find?_ne_some_of_two {l : List String} (name : String)
    (h2 : 2 ≤ l.length) (hn : l.Nodup) :
    ∃ m, l.find? (fun n => n ≠ name) = some m := by
  obtain _ | ⟨x, _ | ⟨y, u⟩⟩ := l
  · simp at h2
  · simp at h2
  · by_cases hx : x = name
    · subst hx
      rw [List.nodup_cons] at hn
      have hyx : y ≠ x := fun he => hn.1 (he ▸ List.mem_cons_self y u)
      refine ⟨y, ?_⟩
      rw [List.find?_cons_of_neg _ (by simp), List.find?_cons_of_pos _ (by simpa using hyx)]
  -- the head already differs from `name`
    · exact ⟨x, by rw [List.find?_cons_of_pos _ (by simpa using hx)]⟩

/-! Claim theorems. -/

/-- Claim C9, counterexample: the claim says any candidate containing a
character outside `[A-Za-z0-9 _-]` is invalid, but the name regex uses the
JS class `\s`, so a candidate containing a tab is accepted by
`validateProfileName`. -/
theorem validateProfileName_whitespace_cex :
    "a\tb".data.all specAllowedNameChar = false ∧
      (validateProfileName "a\tb" []).isValid = true := by
  decide

/-- Claim C9, amended: `validateProfileName` returns invalid exactly when
the candidate is empty, is blank after trimming, is already among
`existingNames`, is longer than 50 characters, or contains a character
outside letters, digits, JS whitespace, hyphen and underscore. -/
theorem validateProfileName_invalid_iff (name : String) (existingNames : List String) :
    (validateProfileName name existingNames).isValid = false ↔
      (name = "" ∨ (jsTrim name).length = 0 ∨ existingNames.contains name = true ∨
        name.length > 50 ∨ name.data.all allowedNameChar = false) := by
  simp only [validateProfileName]
  split_ifs with h1 h2 h3 h4 h5 <;> simp_all

/-- Witness for `validateProfileName_invalid_iff` at the empty candidate. -/
theorem validateProfileName_invalid_iff_witness :
    (validateProfileName "" []).isValid = false :=
  (validateProfileName_invalid_iff "" []).mpr (Or.inl rfl)

/-- Claim C10: `validateProfileName` reports at most one error, and an
existing-name collision is reported alone, before the length and character
rules are even reached. -/
theorem validateProfileName_single_error :
    (∀ name existingNames,
       ((validateProfileName name existingNames).errors).length ≤ 1) ∧
      (∀ name existingNames, name ≠ "" → (jsTrim name).length ≠ 0 →
        existingNames.contains name = true →
        (validateProfileName name existingNames).errors =
          ["Profile name already exists"]) := by
  constructor
  · intro name existingNames
    simp only [validateProfileName]
    split_ifs <;> simp
  · intro name existingNames h1 h2 h3
    have h3' : name ∈ existingNames := by simpa using h3
    simp [validateProfileName, h1, h2, h3']

/-- Witness for `validateProfileName_single_error`: a 60-character candidate
that also collides reports only the collision error. -/
theorem validateProfileName_single_error_witness :
    (validateProfileName name60 [name60]).errors = ["Profile name already exists"] :=
  validateProfileName_single_error.2 name60 [name60] (by decide) (by decide) (by decide)

/-- Claim C3: evaluating the code at the failing input.  Renaming a profile
to its own name passes name validation, then
`profiles[newName] = profiles[oldName]; delete profiles[oldName]` deletes
the profile outright: the persisted document has an empty profile map and a
dangling `currentApiConfigName`, violating the invariant. -/
theorem renameConfig_self_rename_empties_profiles :
    RenameConfig "default" "default" docSingleDefault = .ok docSelfRenamed ∧
      docSelfRenamed.profiles = [] ∧
      getKey docSelfRenamed.profiles docSelfRenamed.globalSettings.currentApiConfigName = none := by
  decide

/-- Claim C4: evaluating the code at the failing input.  With a non-empty
`modeApiConfigs`, a valid rename throws a `TypeError` (the fix-up loop reads
`profiles[oldName].id` after `profiles[oldName]` was deleted) instead of
succeeding; renaming onto a different existing name does raise the
invalid-name error as claimed. -/
theorem renameConfig_mode_bindings_type_error :
    RenameConfig "a" "c" docMode = .error .typeError ∧
      RenameConfig "a" "dup" docMode =
        .error (.invalidName ["Profile name already exists"]) := by
  decide

/-- Claim C5: evaluating the code at the failing input.  On an empty backing
store `initConfig` writes nothing: `readConfig` substitutes the in-memory
default document (a truthy value), so the write-fresh-document branch is
unreachable and the id/global-settings checks find nothing to change. -/
theorem initConfig_empty_store_writes_nothing (seed : String) (gen : Nat)
    (h : seed ≠ "") :
    initConfig seed none gen = { store := none, gen := gen, threw := none } := by
  simp [initConfig, readConfig, defaultConfig, ensureIds, h]

/-- Witness for `initConfig_empty_store_writes_nothing`. -/
theorem initConfig_empty_store_writes_nothing_witness :
    initConfig "d0" none 0 = { store := none, gen := 0, threw := none } :=
  initConfig_empty_store_writes_nothing "d0" 0 (by decide)

/-- Claim C1, counterexample: saving to the existing name `"a"` with a
caller configuration that carries no id does not keep the persisted id
`"A1"`; the extraction step assigns a freshly generated id. -/
theorem saveConfig_regenerates_id_cex :
    SaveConfig "a" { apiProvider := some .ollama } docSaveId 0 =
      .ok (docSavedFresh, 1) ∧
      (getKey docSavedFresh.profiles "a").map ProfileSpecificSettings.id = some (genId 0) ∧
      genId 0 ≠ "A1" := by
  decide

/-- Claim C2, counterexample: migrating `legacyRoundTrip` persists the mode
binding `chat -> "p1"` verbatim (the legacy profile name), not the fresh id
generated for profile `p1`. -/
theorem initConfig_migration_binding_cex :
    (initConfig "seed" (some (.legacy legacyRoundTrip)) 0).store =
      some (.current migratedRoundTrip) ∧
      migratedRoundTrip.globalSettings.modeApiConfigs = some [("chat", "p1")] ∧
      (getKey migratedRoundTrip.profiles "p1").map ProfileSpecificSettings.id =
        some (genId 0) ∧
      "p1" ≠ genId 0 ∧
      migratedRoundTrip.globalSettings.currentApiConfigName = "p2" := by
  decide

/-- Claim C1, amended: a save to an existing name overwrites it without
error, but the stored id is the one carried inside the caller's
configuration (a fresh id is generated when the configuration carries
none — see the counterexample), not the previously persisted id; a rename
to a different name that succeeds moves the profile object unchanged, id
included. -/
theorem saveConfig_renameConfig_id_behavior :
    (∀ name cfg doc gen i d g, cfg.id = some i → i ≠ "" →
        SaveConfig name cfg doc gen = .ok (d, g) →
        (getKey d.profiles name).map ProfileSpecificSettings.id = some i) ∧
      (∀ oldName newName doc d p, oldName ≠ newName →
        RenameConfig oldName newName doc = .ok d →
        getKey doc.profiles oldName = some p →
        getKey d.profiles newName = some p) := by
  constructor
  · intro name cfg doc gen i d g hid hne hsave
    obtain ⟨hd, _⟩ := SaveConfig_ok_shape hsave
    subst hd
    show (getKey (setKey doc.profiles name (extractProfileSettings gen cfg).1) name).map
      ProfileSpecificSettings.id = some i
    rw [getKey_setKey_self]
    simp [extract_id_of_some gen cfg i hid hne]
  · intro oldName newName doc d p hne hren hold
    simp only [RenameConfig, hold] at hren
    split at hren
    · simp at hren
    · split at hren
      · replace hren := Except.ok.inj hren
        subst hren
        rw [getKey_eraseKey_ne _ _ _ (Ne.symm hne), getKey_setKey_self]
      · replace hren := Except.ok.inj hren
        subst hren
        rw [getKey_eraseKey_ne _ _ _ (Ne.symm hne), getKey_setKey_self]
      · split at hren
        · simp at hren
        · replace hren := Except.ok.inj hren
          subst hren
          rw [getKey_eraseKey_ne _ _ _ (Ne.symm hne), getKey_setKey_self]

/-- Witness for `saveConfig_renameConfig_id_behavior`: saving a
configuration that carries the persisted id `"A1"` back to `"a"` keeps the
id. -/
theorem saveConfig_renameConfig_id_behavior_witness :
    (getKey docSaveId.profiles "a").map ProfileSpecificSettings.id = some "A1" :=
  saveConfig_renameConfig_id_behavior.1 "a"
    { id := some "A1", apiProvider := some .ollama } docSaveId 0 "A1" docSaveId 0
    rfl (by decide) (by decide)

/-- Claim C2, amended: migrating a legacy document persists a current-shape
document whose `currentApiConfigName` is the carried-over
`currentApiConfigName` (defaulting to `"default"`), whose profiles are the
extracted legacy entries in order under their old names, and whose
`modeApiConfigs` is carried over verbatim — the values remain legacy profile
names and are not translated to the freshly generated ids; the generated
ids themselves are pairwise distinct. -/
theorem initConfig_legacy_migration (seed : String) (old : LegacyDoc) (gen : Nat) :
    (initConfig seed (some (.legacy old)) gen).store =
      some (.current
        { globalSettings :=
            { currentApiConfigName := jsOrStr old.currentApiConfigName "default"
              modeApiConfigs := some (old.modeApiConfigs.getD []) }
          profiles := (migrateProfiles gen old.apiConfigs).1 }) ∧
      (migrateProfiles gen old.apiConfigs).1.map Prod.fst = old.apiConfigs.map Prod.fst ∧
      ((∀ e ∈ old.apiConfigs, e.2.id = none) →
        ((migrateProfiles gen old.apiConfigs).1.map (fun e => e.2.id)).Nodup) := by
  refine ⟨rfl, migrateProfiles_names gen old.apiConfigs, ?_⟩
  intro h
  rw [migrateProfiles_ids_of_no_id old.apiConfigs gen h]
  refine List.Nodup.map ?_ (List.nodup_range _)
  intro a b hab
  have := genId_injective hab
  omega

/-- Witness for `initConfig_legacy_migration`: the ids generated for the
round-trip example's two profiles are distinct. -/
theorem initConfig_legacy_migration_witness :
    ((migrateProfiles 0 legacyRoundTrip.apiConfigs).1.map (fun e => e.2.id)).Nodup :=
  (initConfig_legacy_migration "seed" legacyRoundTrip 0).2.2 (by decide)

/-- Claim C6: a save whose extracted settings fail validation (bedrock with
an access key but no secret key) raises the invalid-settings error, whose
message list names the missing secret key, and nothing is written — a name
absent beforehand still comes back not-found; loading an existing profile
that fails the same validation still succeeds, with a logged warning. -/
theorem saveConfig_invalid_settings_hard_loadConfig_soft :
    (∀ name cfg doc gen, cfg.apiProvider = some .bedrock →
        truthy cfg.awsAccessKey = true → truthy cfg.awsSecretKey = false →
        ∃ errs, SaveConfig name cfg doc gen = .error (.invalidSettings errs) ∧
          "Secret key is required for AWS Bedrock" ∈ errs) ∧
      (∀ name doc, getKey doc.profiles name = none →
        LoadConfig name doc = .error (.notFound name)) ∧
      (∀ name doc p, getKey doc.profiles name = some p →
        (validateProfileSettings p).isValid = false →
        ∃ r, LoadConfig name doc = .ok r ∧ r.warnings ≠ []) := by
  refine ⟨?_, ?_, ?_⟩
  · intro name cfg doc gen hprov hacc hsec
    have hprov1 : (extractProfileSettings gen cfg).1.apiProvider = some .bedrock := by
      rw [extract_apiProvider, hprov]
    have hacc1 : truthy (extractProfileSettings gen cfg).1.awsAccessKey = true := by
      rw [extract_awsAccessKey]; exact hacc
    have hsec1 : truthy (extractProfileSettings gen cfg).1.awsSecretKey = false := by
      rw [extract_awsSecretKey]; exact hsec
    have hmem : "Secret key is required for AWS Bedrock" ∈
        (validateProfileSettings (extractProfileSettings gen cfg).1).errors := by
      simp [validateProfileSettings, hprov1, hacc1, hsec1]
    have hvalid : (validateProfileSettings (extractProfileSettings gen cfg).1).isValid = false := by
      cases hmodel : (extractProfileSettings gen cfg).1.apiModelId <;>
        simp [validateProfileSettings, hprov1, hacc1, hsec1, hmodel]
    refine ⟨(validateProfileSettings (extractProfileSettings gen cfg).1).errors, ?_, hmem⟩
    simp [SaveConfig, hvalid]
  · intro name doc h
    simp [LoadConfig, h]
  · intro name doc p hp hval
    simp only [LoadConfig, hp]
    refine ⟨_, rfl, ?_⟩
    simp [hval]

/-- Witness for `saveConfig_invalid_settings_hard_loadConfig_soft`: a
missing profile stays not-found, and the concrete bedrock save from the
claim's example is rejected with the secret-key message. -/
theorem saveConfig_invalid_settings_hard_loadConfig_soft_witness :
    LoadConfig "x" docSaveId = .error (.notFound "x") ∧
      SaveConfig "x" cfgBedrock docSaveId 0 =
        .error (.invalidSettings ["Secret key is required for AWS Bedrock"]) :=
  ⟨saveConfig_invalid_settings_hard_loadConfig_soft.2.1 "x" docSaveId (by decide),
   by decide⟩

/-- Claim C8: a successful save changes only the profile stored under
`name`: global settings and every other profile entry are untouched, the
stored entry is exactly the extraction result — which ignores any bundled
global-only fields — and a subsequent save to a different name leaves the
entry unchanged. -/
theorem saveConfig_frame :
    ∀ name cfg doc gen d g, SaveConfig name cfg doc gen = .ok (d, g) →
      d.globalSettings = doc.globalSettings ∧
      (∀ n, n ≠ name → getKey d.profiles n = getKey doc.profiles n) ∧
      getKey d.profiles name = some (extractProfileSettings gen cfg).1 ∧
      (∀ l, (extractProfileSettings gen { cfg with extraGlobalFields := l }).1 =
          (extractProfileSettings gen cfg).1) ∧
      (∀ n2 c2 d2 g2, n2 ≠ name → SaveConfig n2 c2 d g = .ok (d2, g2) →
          getKey d2.profiles name = getKey d.profiles name) := by
  intro name cfg doc gen d g hsave
  obtain ⟨hd, hg⟩ := SaveConfig_ok_shape hsave
  subst hd
  refine ⟨rfl, ?_, ?_, ?_, ?_⟩
  · intro n hn
    exact getKey_setKey_ne _ _ _ _ hn
  · exact getKey_setKey_self _ _ _
  · intro l
    rfl
  · intro n2 c2 d2 g2 hn2 hsave2
    obtain ⟨hd2, _⟩ := SaveConfig_ok_shape hsave2
    subst hd2
    exact getKey_setKey_ne _ _ _ _ (Ne.symm hn2)

/-- Witness for `saveConfig_frame`: saving a second profile `"b"` leaves the
global settings of `docSaveId` unchanged. -/
theorem saveConfig_frame_witness :
    ({ globalSettings := { currentApiConfigName := "a" }
       profiles := [("a", { id := "A1", apiProvider := some .ollama }),
                    ("b", { id := "B1", apiProvider := some .lmstudio })] } :
        ApiConfigData).globalSettings = docSaveId.globalSettings :=
  (saveConfig_frame "b" { id := some "B1", apiProvider := some .lmstudio }
    docSaveId 0 _ 0 (by decide)).1

/-- Claim C7: `DeleteConfig` raises not-found for an absent name; raises the
dedicated last-profile error, writing nothing, when the named profile is the
only one; and otherwise removes the entry, reassigns the current profile to
the first remaining key when the deleted profile was current, prunes every
mode binding bound to the deleted profile's id, and persists the result. -/
theorem deleteConfig_spec :
    ∀ name doc,
      (getKey doc.profiles name = none →
        DeleteConfig name doc = .error (.notFound name)) ∧
      (∀ p, getKey doc.profiles name = some p → doc.profiles.length = 1 →
        DeleteConfig name doc = .error .lastProfile) ∧
      (∀ p, getKey doc.profiles name = some p → doc.profiles.length ≠ 1 →
        (doc.profiles.map Prod.fst).Nodup →
        ∃ d, DeleteConfig name doc = .ok d ∧
          d.profiles = eraseKey doc.profiles name ∧
          (doc.globalSettings.currentApiConfigName = name →
            (d.profiles.map Prod.fst).head? = some d.globalSettings.currentApiConfigName) ∧
          (doc.globalSettings.currentApiConfigName ≠ name →
            d.globalSettings.currentApiConfigName = doc.globalSettings.currentApiConfigName) ∧
          (∀ ms, doc.globalSettings.modeApiConfigs = some ms →
            d.globalSettings.modeApiConfigs = some (ms.filter (fun e => e.2 ≠ p.id))) ∧
          (doc.globalSettings.modeApiConfigs = none →
            d.globalSettings.modeApiConfigs = none)) := by
  intro name doc
  refine ⟨?_, ?_, ?_⟩
  · intro h
    simp [DeleteConfig, h]
  · intro p hp hlen
    simp [DeleteConfig, hp, hlen]
  · intro p hp hlen hnodup
    have hmem : name ∈ doc.profiles.map Prod.fst := getKey_eq_some_mem hp
    have hlen2 : 2 ≤ (doc.profiles.map Prod.fst).length := by
      rw [List.length_map]
      have h1 : doc.profiles ≠ [] := by
        intro hnil
        rw [hnil] at hp
        simp [getKey] at hp
      have h2 : 1 ≤ doc.profiles.length := List.length_pos.mpr h1
      omega
    obtain ⟨m, hm⟩ := find?_ne_some_of_two name hlen2 hnodup
    have hhead : ((eraseKey doc.profiles name).map Prod.fst).head? = some m := by
      rw [map_fst_eraseKey _ _ hnodup, ← find?_eq_head?_filter]
      exact hm
    by_cases hcur : doc.globalSettings.currentApiConfigName = name
    · cases hms : doc.globalSettings.modeApiConfigs with
      | none =>
          refine ⟨{ globalSettings := { doc.globalSettings with currentApiConfigName := m }
                    profiles := eraseKey doc.profiles name }, ?_, rfl, ?_, ?_, ?_, ?_⟩
          · simp only [DeleteConfig, hp]
            rw [if_neg hlen, if_pos hcur, hm]
            simp [hms]
          · intro _
            exact hhead
          · intro hc
            exact absurd hcur hc
          · intro ms hms2
            exact absurd hms2 (by simp)
          · intro _
            exact hms
      | some ms0 =>
          refine ⟨{ globalSettings := { doc.globalSettings with
                      currentApiConfigName := m
                      modeApiConfigs := some (ms0.filter (fun e => e.2 ≠ p.id)) }
                    profiles := eraseKey doc.profiles name }, ?_, rfl, ?_, ?_, ?_, ?_⟩
          · simp only [DeleteConfig, hp]
            rw [if_neg hlen, if_pos hcur, hm]
            simp [hms]
          · intro _
            exact hhead
          · intro hc
            exact absurd hcur hc
          · intro ms hms2
            replace hms2 := Option.some.inj hms2
            subst hms2
            rfl
          · intro hc
            exact absurd hc (by simp)
    · cases hms : doc.globalSettings.modeApiConfigs with
      | none =>
          refine ⟨{ globalSettings := doc.globalSettings
                    profiles := eraseKey doc.profiles name }, ?_, rfl, ?_, ?_, ?_, ?_⟩
          · simp only [DeleteConfig, hp]
            rw [if_neg hlen, if_neg hcur]
            simp [hms]
          · intro hc
            exact absurd hc hcur
          · intro _
            rfl
          · intro ms hms2
            exact absurd hms2 (by simp)
          · intro _
            exact hms
      | some ms0 =>
          refine ⟨{ globalSettings := { doc.globalSettings with
                      modeApiConfigs := some (ms0.filter (fun e => e.2 ≠ p.id)) }
                    profiles := eraseKey doc.profiles name }, ?_, rfl, ?_, ?_, ?_, ?_⟩
          · simp only [DeleteConfig, hp]
            rw [if_neg hlen, if_neg hcur]
            simp [hms]
          · intro hc
            exact absurd hc hcur
          · intro _
            rfl
          · intro ms hms2
            replace hms2 := Option.some.inj hms2
            subst hms2
            rfl
          · intro hc
            exact absurd hc (by simp)

/-- Witness for `deleteConfig_spec`: a missing name is not-found, deleting
the sole profile is refused, and the claim's two-profile reassignment
example deletes `"a"`, makes `"b"` current and prunes the binding to id
`"A1"`. -/
theorem deleteConfig_spec_witness :
    DeleteConfig "zzz" docTwo = .error (.notFound "zzz") ∧
      DeleteConfig "default" docSingleDefault = .error .lastProfile ∧
      DeleteConfig "a" docTwo =
        .ok { globalSettings := { currentApiConfigName := "b"
                                  modeApiConfigs := some [] }
              profiles := [("b", { id := "B1", apiProvider := some .lmstudio })] } :=
  ⟨(deleteConfig_spec "zzz" docTwo).1 (by decide),
   (deleteConfig_spec "default" docSingleDefault).2.1 { id := "d1" } (by decide) (by decide),
   by decide⟩

end RooCline
